import Mathlib

/-!
Shallow embedding of the deployment orchestrator of the
`llm-inference-platform` repository: the SLURM scheduler client
(`slurm.py`), the wait-until-running state machine, and the deploy
session (`deploy.py`), together with theorems checking the
natural-language specification against this embedding.

External effects are made explicit: each scheduler invocation is a
function of the text output (and exit code, where relevant) that the
external command produced, and the deploy session is a function of an
environment that scripts every external observation.
-/

namespace LlmInfer

/-- Python-level exceptions that the embedded code can raise. -/
inductive PyErr where
  | indexError
  | typeError
  | calledProcessError
  | submissionError
  deriving DecidableEq, Repr

/-- `JobState` from `slurm.py`: coarse categorization of SLURM job states. -/
inductive JobState where
  | RUNNING
  | COMPLETED
  | PENDING
  | FAILED
  | UNKNOWN
  deriving DecidableEq, BEq, Repr

/-- `JobState.from_status_str` from `slurm.py` lines 22-35: interpret the
raw SLURM status token via a fixed table with a catch-all default. -/
def JobState.from_status_str (status : String) : JobState :=
  match status with
  | "RUNNING" => JobState.RUNNING
  | "COMPLETED" | "DEADLINE" => JobState.COMPLETED
  | "PENDING" | "REQUEUED" => JobState.PENDING
  | "FAILED" | "BOOT_FAIL" | "CANCELLED" | "NODE_FAIL"
  | "OUT_OF_MEMORY" | "PREEMPTED" | "TIMEOUT" => JobState.FAILED
  | _ => JobState.UNKNOWN

/-- The classification table exactly as the spec states it
(raw status token, mapped state). -/
def specClassificationTable : List (String × JobState) :=
  [("RUNNING", JobState.RUNNING),
   ("COMPLETED", JobState.COMPLETED), ("DEADLINE", JobState.COMPLETED),
   ("PENDING", JobState.PENDING), ("REQUEUED", JobState.PENDING),
   ("FAILED", JobState.FAILED), ("BOOT_FAIL", JobState.FAILED),
   ("CANCELLED", JobState.FAILED), ("NODE_FAIL", JobState.FAILED),
   ("OUT_OF_MEMORY", JobState.FAILED), ("PREEMPTED", JobState.FAILED),
   ("TIMEOUT", JobState.FAILED)]

/-- Whitespace in the sense of Python `str.strip` (the characters that
occur in the outputs handled here). -/
def isSpaceChar (c : Char) : Bool :=
  c = ' ' || c = '\n' || c = '\t' || c = '\r'

/-- Python `str.strip`: drop leading and trailing whitespace. -/
def pyStrip (cs : List Char) : List Char :=
  ((cs.dropWhile isSpaceChar).reverse.dropWhile isSpaceChar).reverse

/-- Helper for `pySplitlines`: split a character list at newlines. -/
def splitLinesAux : List Char → List Char → List (List Char)
  | [], acc => [acc.reverse]
  | '\n' :: rest, acc => acc.reverse :: splitLinesAux rest []
  | c :: rest, acc => splitLinesAux rest (acc.cons c)

/-- Python `str.splitlines` restricted to the newline terminator, as
applied to already-stripped text: the empty string yields the empty
list, otherwise the text is split at newlines. -/
def pySplitlines (cs : List Char) : List (List Char) :=
  match cs with
  | [] => []
  | c :: rest => splitLinesAux (c :: rest) []

/-- Result of running an external command: its exit code and its
combined stdout/stderr text. -/
structure CmdResult where
  exitCode : Nat
  output : String
  deriving DecidableEq, Repr

/-- `subprocess.check_output`: returns the output when the command
exits with code 0, raises `CalledProcessError` otherwise. -/
def check_output (r : CmdResult) : Except PyErr String :=
  if r.exitCode = 0 then Except.ok r.output else Except.error PyErr.calledProcessError

/-- `get_slurm_job_status` from `slurm.py` lines 38-58, as a function of
the text produced by the `sacct --format=State` command: strip the
output; if it is empty return `("", UNKNOWN)`; otherwise classify the
stripped first line. -/
def get_slurm_job_status (out : String) : String × JobState :=
  let full := pyStrip out.data
  if full = [] then ("", JobState.UNKNOWN)
  else
    let statusStr := String.mk (pyStrip ((pySplitlines full).headD []))
    (statusStr, JobState.from_status_str statusStr)

/-- `get_slurm_start_time` from `slurm.py` lines 61-78, as a function of
the text produced by the `sacct --format=Start` command: strip the
output and take the stripped first line.  Unlike `get_slurm_job_status`
there is no emptiness guard: on empty output `splitlines()` is empty and
the `[0]` index raises `IndexError`. -/
def get_slurm_start_time (out : String) : Except PyErr String :=
  match pySplitlines (pyStrip out.data) with
  | [] => Except.error PyErr.indexError
  | l :: _ => Except.ok (String.mk (pyStrip l))

/-- `get_slurm_node` from `slurm.py` lines 81-98, as a function of the
text produced by the `squeue --format=%N` command: strip the output and
take the stripped first line.  Like `get_slurm_start_time` (and unlike
`get_slurm_job_status`) there is no emptiness guard, so empty output
raises `IndexError` at the `splitlines()[0]` index. -/
def get_slurm_node (out : String) : Except PyErr String :=
  match pySplitlines (pyStrip out.data) with
  | [] => Except.error PyErr.indexError
  | l :: _ => Except.ok (String.mk (pyStrip l))

/-- `cancel_slurm_job` from `slurm.py` lines 101-115, as a function of
the result of the `scancel` command: it calls `subprocess.check_output`
with no exception handler, so a non-zero exit of `scancel` propagates as
`CalledProcessError`. -/
def cancel_slurm_job (r : CmdResult) : Except PyErr Unit :=
  (check_output r).map fun _ => ()

instance {ε α : Type} [DecidableEq ε] [DecidableEq α] :
    DecidableEq (Except ε α)
  | Except.ok a, Except.ok b =>
    if h : a = b then isTrue (by rw [h]) else isFalse (by simp [h])
  | Except.ok _, Except.error _ => isFalse (by simp)
  | Except.error _, Except.ok _ => isFalse (by simp)
  | Except.error e, Except.error f =>
    if h : e = f then isTrue (by rw [h]) else isFalse (by simp [h])

/-- Whether an `Except` value is a success. -/
def exceptOk {ε α : Type} : Except ε α → Bool
  | Except.ok _ => true
  | Except.error _ => false

/-- Feedback severity of `WaitTillRunning.user_feedback`. -/
inductive Level where
  | info
  | error
  deriving DecidableEq, Repr

/-- One iteration of the `WaitTillRunning.wait` poll loop observes: the
classified job status (the second component of `get_slurm_job_status`),
the text that a `get_slurm_start_time` query would return at this
iteration (consulted only on `PENDING`), and the wall-clock seconds
elapsed since the wait began (consulted only on `UNKNOWN`). -/
structure PollEnv where
  status : JobState
  startOut : String
  elapsed : Nat
  deriving DecidableEq, Repr

instance : Inhabited PollEnv := ⟨⟨JobState.UNKNOWN, "", 0⟩⟩

/-- Outcome of `WaitTillRunning.wait`: `success` is `return True`,
`failure lvl` is `return False` after a last feedback message of
severity `lvl`, `raised e` is an unhandled exception escaping the loop,
and `exhausted` means the scripted observations ran out while the code
would still be polling. -/
inductive WaitOutcome where
  | success
  | failure (lvl : Level)
  | raised (e : PyErr)
  | exhausted
  deriving DecidableEq, Repr

/-- The loop body of `WaitTillRunning.wait` from `slurm.py` lines
141-188, over a scripted list of observations, carrying the
`iter_running` counter.  Note the source never resets `iter_running`:
once a first `RUNNING` was seen, any later `RUNNING` returns `True`. -/
def waitAux : Nat → List PollEnv → WaitOutcome
  | _, [] => WaitOutcome.exhausted
  | iterRunning, p :: rest =>
    match p.status with
    | JobState.RUNNING =>
      if iterRunning = 0 then waitAux 1 rest else WaitOutcome.success
    | JobState.PENDING =>
      match get_slurm_start_time p.startOut with
      | Except.error e => WaitOutcome.raised e
      | Except.ok _ => waitAux iterRunning rest
    | JobState.FAILED => WaitOutcome.failure Level.error
    | JobState.COMPLETED => WaitOutcome.failure Level.info
    | JobState.UNKNOWN =>
      if p.elapsed < 30 then waitAux iterRunning rest
      else WaitOutcome.failure Level.error

/-- `WaitTillRunning.wait`: the loop starts with `iter_running = 0`. -/
def wait (trace : List PollEnv) : WaitOutcome :=
  waitAux 0 trace

/-- An observation that `wait` passes over without returning: a
`RUNNING` reading, a `PENDING` reading whose start-estimate query
parses, or an `UNKNOWN` reading inside the 30-second grace window. -/
def benign (p : PollEnv) : Prop :=
  p.status = JobState.RUNNING ∨
  (p.status = JobState.PENDING ∧ exceptOk (get_slurm_start_time p.startOut) = true) ∨
  (p.status = JobState.UNKNOWN ∧ p.elapsed < 30)

instance (p : PollEnv) : Decidable (benign p) := by
  unfold benign; infer_instance

/-- The success condition exactly as the spec states it: the status
stream contains `Running` on two consecutive polls. -/
def twoConsecutiveRunning : List JobState → Bool
  | a :: b :: rest =>
    (a == JobState.RUNNING && b == JobState.RUNNING) || twoConsecutiveRunning (b :: rest)
  | _ => false

/-- What `wait` actually requires for success: a first `RUNNING`
reading and a later (not necessarily adjacent) second `RUNNING` reading,
with every reading before the second one benign. -/
def SpecSuccess2 (tr : List PollEnv) : Prop :=
  ∃ pre p mid q post, tr = pre ++ p :: (mid ++ q :: post) ∧
    p.status = JobState.RUNNING ∧ q.status = JobState.RUNNING ∧
    (∀ x ∈ pre, benign x) ∧ (∀ x ∈ mid, benign x)

/-- Success condition of the loop once `iter_running = 1`: one more
`RUNNING` reading preceded only by benign readings. -/
def SpecSuccess1 (tr : List PollEnv) : Prop :=
  ∃ pre q post, tr = pre ++ q :: post ∧
    q.status = JobState.RUNNING ∧ (∀ x ∈ pre, benign x)

lemma specSuccess1_cons_not_benign {p : PollEnv} {rest : List PollEnv}
    (hb : ¬ benign p) : ¬ SpecSuccess1 (p :: rest) := by
  rintro ⟨pre, q, post, heq, hq, hben⟩
  cases pre with
  | nil =>
    simp only [List.nil_append, List.cons.injEq] at heq
    exact hb (Or.inl (heq.1 ▸ hq))
  | cons a pre' =>
    simp only [List.cons_append, List.cons.injEq] at heq
    exact hb (heq.1 ▸ hben a (List.mem_cons_self a pre'))

lemma specSuccess2_cons_not_benign {p : PollEnv} {rest : List PollEnv}
    (hb : ¬ benign p) : ¬ SpecSuccess2 (p :: rest) := by
  rintro ⟨pre, p0, mid, q, post, heq, hp0, hq, hpre, hmid⟩
  cases pre with
  | nil =>
    simp only [List.nil_append, List.cons.injEq] at heq
    exact hb (Or.inl (heq.1 ▸ hp0))
  | cons a pre' =>
    simp only [List.cons_append, List.cons.injEq] at heq
    exact hb (heq.1 ▸ hpre a (List.mem_cons_self a pre'))

lemma specSuccess1_cons_benign {p : PollEnv} {rest : List PollEnv}
    (hb : benign p) (hnr : p.status ≠ JobState.RUNNING) :
    SpecSuccess1 (p :: rest) ↔ SpecSuccess1 rest := by
  constructor
  · rintro ⟨pre, q, post, heq, hq, hben⟩
    cases pre with
    | nil =>
      simp only [List.nil_append, List.cons.injEq] at heq
      exact absurd (heq.1 ▸ hq) hnr
    | cons a pre' =>
      simp only [List.cons_append, List.cons.injEq] at heq
      exact ⟨pre', q, post, heq.2, hq,
        fun x hx => hben x (List.mem_cons_of_mem a hx)⟩
  · rintro ⟨pre, q, post, heq, hq, hben⟩
    refine ⟨p :: pre, q, post, by simp [heq], hq, ?_⟩
    intro x hx
    rcases List.mem_cons.mp hx with h | h
    · exact h ▸ hb
    · exact hben x h

lemma specSuccess2_cons_benign {p : PollEnv} {rest : List PollEnv}
    (hb : benign p) (hnr : p.status ≠ JobState.RUNNING) :
    SpecSuccess2 (p :: rest) ↔ SpecSuccess2 rest := by
  constructor
  · rintro ⟨pre, p0, mid, q, post, heq, hp0, hq, hpre, hmid⟩
    cases pre with
    | nil =>
      simp only [List.nil_append, List.cons.injEq] at heq
      exact absurd (heq.1 ▸ hp0) hnr
    | cons a pre' =>
      simp only [List.cons_append, List.cons.injEq] at heq
      exact ⟨pre', p0, mid, q, post, heq.2, hp0, hq,
        fun x hx => hpre x (List.mem_cons_of_mem a hx), hmid⟩
  · rintro ⟨pre, p0, mid, q, post, heq, hp0, hq, hpre, hmid⟩
    refine ⟨p :: pre, p0, mid, q, post, by simp [heq], hp0, hq, ?_, hmid⟩
    intro x hx
    rcases List.mem_cons.mp hx with h | h
    · exact h ▸ hb
    · exact hpre x h

lemma specSuccess1_cons_running {p : PollEnv} (rest : List PollEnv)
    (hs : p.status = JobState.RUNNING) : SpecSuccess1 (p :: rest) :=
  ⟨[], p, rest, rfl, hs, by simp⟩

lemma specSuccess2_cons_running {p : PollEnv} {rest : List PollEnv}
    (hs : p.status = JobState.RUNNING) :
    SpecSuccess2 (p :: rest) ↔ SpecSuccess1 rest := by
  constructor
  · rintro ⟨pre, p0, mid, q, post, heq, hp0, hq, hpre, hmid⟩
    cases pre with
    | nil =>
      simp only [List.nil_append, List.cons.injEq] at heq
      exact ⟨mid, q, post, heq.2, hq, hmid⟩
    | cons a pre' =>
      simp only [List.cons_append, List.cons.injEq] at heq
      exact ⟨pre', p0, mid ++ q :: post, heq.2, hp0,
        fun x hx => hpre x (List.mem_cons_of_mem a hx)⟩
  · rintro ⟨pre, q, post, heq, hq, hben⟩
    exact ⟨[], p, pre, q, post, by simp [heq], hs, hq, by simp, hben⟩

lemma waitAux_one_iff (tr : List PollEnv) :
    waitAux 1 tr = WaitOutcome.success ↔ SpecSuccess1 tr := by
  induction tr with
  | nil =>
    constructor
    · intro h; simp [waitAux] at h
    · rintro ⟨pre, q, post, heq, -, -⟩
      exact absurd heq (by simp)
  | cons p rest ih =>
    cases hs : p.status with
    | RUNNING =>
      constructor
      · intro _; exact specSuccess1_cons_running rest hs
      · intro _; simp [waitAux, hs]
    | PENDING =>
      cases hst : get_slurm_start_time p.startOut with
      | error e =>
        constructor
        · intro h; simp [waitAux, hs, hst] at h
        · intro h
          exact absurd h (specSuccess1_cons_not_benign (by
            simp [benign, hs, exceptOk, hst]))
      | ok s =>
        rw [show waitAux 1 (p :: rest) = waitAux 1 rest by simp [waitAux, hs, hst], ih]
        exact (specSuccess1_cons_benign
          (Or.inr (Or.inl ⟨hs, by simp [exceptOk, hst]⟩)) (by simp [hs])).symm
    | FAILED =>
      constructor
      · intro h; simp [waitAux, hs] at h
      · intro h
        exact absurd h (specSuccess1_cons_not_benign (by simp [benign, hs]))
    | COMPLETED =>
      constructor
      · intro h; simp [waitAux, hs] at h
      · intro h
        exact absurd h (specSuccess1_cons_not_benign (by simp [benign, hs]))
    | UNKNOWN =>
      by_cases hel : p.elapsed < 30
      · rw [show waitAux 1 (p :: rest) = waitAux 1 rest by simp [waitAux, hs, hel], ih]
        exact (specSuccess1_cons_benign (Or.inr (Or.inr ⟨hs, hel⟩)) (by simp [hs])).symm
      · constructor
        · intro h; simp [waitAux, hs, hel] at h
        · intro h
          exact absurd h (specSuccess1_cons_not_benign (by simp [benign, hs, hel]))

lemma waitAux_zero_iff (tr : List PollEnv) :
    waitAux 0 tr = WaitOutcome.success ↔ SpecSuccess2 tr := by
  induction tr with
  | nil =>
    constructor
    · intro h; simp [waitAux] at h
    · rintro ⟨pre, p0, mid, q, post, heq, -, -, -, -⟩
      exact absurd heq (by simp)
  | cons p rest ih =>
    cases hs : p.status with
    | RUNNING =>
      rw [show waitAux 0 (p :: rest) = waitAux 1 rest by simp [waitAux, hs],
        waitAux_one_iff]
      exact (specSuccess2_cons_running hs).symm
    | PENDING =>
      cases hst : get_slurm_start_time p.startOut with
      | error e =>
        constructor
        · intro h; simp [waitAux, hs, hst] at h
        · intro h
          exact absurd h (specSuccess2_cons_not_benign (by
            simp [benign, hs, exceptOk, hst]))
      | ok s =>
        rw [show waitAux 0 (p :: rest) = waitAux 0 rest by simp [waitAux, hs, hst], ih]
        exact (specSuccess2_cons_benign
          (Or.inr (Or.inl ⟨hs, by simp [exceptOk, hst]⟩)) (by simp [hs])).symm
    | FAILED =>
      constructor
      · intro h; simp [waitAux, hs] at h
      · intro h
        exact absurd h (specSuccess2_cons_not_benign (by simp [benign, hs]))
    | COMPLETED =>
      constructor
      · intro h; simp [waitAux, hs] at h
      · intro h
        exact absurd h (specSuccess2_cons_not_benign (by simp [benign, hs]))
    | UNKNOWN =>
      by_cases hel : p.elapsed < 30
      · rw [show waitAux 0 (p :: rest) = waitAux 0 rest by simp [waitAux, hs, hel], ih]
        exact (specSuccess2_cons_benign (Or.inr (Or.inr ⟨hs, hel⟩)) (by simp [hs])).symm
      · constructor
        · intro h; simp [waitAux, hs, hel] at h
        · intro h
          exact absurd h (specSuccess2_cons_not_benign (by simp [benign, hs, hel]))

/-- A scripted status sequence: `RUNNING`, then `PENDING` (with a
parseable start estimate), then `RUNNING` again. -/
def interveningPendingTrace : List PollEnv :=
  [⟨JobState.RUNNING, "", 0⟩,
   ⟨JobState.PENDING, "2021-10-05T17:05:00", 0⟩,
   ⟨JobState.RUNNING, "", 0⟩]

/-- C1, counterexample: on the observation sequence `RUNNING`,
`PENDING`, `RUNNING` the wait returns success although the scheduler
never reports `Running` on two consecutive polls — the reading between
the two `Running` observations is non-`Running`, and the
running-confirmation counter is not reset by it. -/
theorem wait_succeeds_without_consecutive_running :
    wait interveningPendingTrace = WaitOutcome.success ∧
    twoConsecutiveRunning (interveningPendingTrace.map PollEnv.status) = false := by
  constructor
  · decide
  · decide

/-- C1, amended: `WaitTillRunning.wait` returns success if and only if
the observation sequence contains a first `Running` reading and a later,
not necessarily consecutive, second `Running` reading such that every
reading before the second one is non-terminal (`Running`, or `Pending`
with a parseable start estimate, or `Unknown` within the 30-second grace
window); the running-confirmation counter is never reset. -/
theorem wait_success_iff_two_running (tr : List PollEnv) :
    wait tr = WaitOutcome.success ↔ SpecSuccess2 tr :=
  waitAux_zero_iff tr

/-- C1, witness: the amended characterization applied to the concrete
`RUNNING`, `PENDING`, `RUNNING` sequence. -/
theorem wait_success_iff_two_running_witness :
    wait interveningPendingTrace = WaitOutcome.success :=
  (wait_success_iff_two_running interveningPendingTrace).mpr
    ⟨[], ⟨JobState.RUNNING, "", 0⟩, [⟨JobState.PENDING, "2021-10-05T17:05:00", 0⟩],
     ⟨JobState.RUNNING, "", 0⟩, [], rfl, rfl, rfl, by decide, by decide⟩

/-- C3: the status classifier realizes exactly the fixed table — every
raw token listed in the table maps to its table entry, and every other
string (the empty string included) maps to `UNKNOWN`. -/
theorem from_status_str_follows_table :
    (∀ e ∈ specClassificationTable, JobState.from_status_str e.1 = e.2) ∧
    (∀ s : String, s ∉ specClassificationTable.map Prod.fst →
      JobState.from_status_str s = JobState.UNKNOWN) := by
  constructor
  · intro e he
    fin_cases he <;> rfl
  · intro s hs
    simp only [specClassificationTable, List.map_cons, List.map_nil,
      List.mem_cons, List.not_mem_nil, or_false, not_or] at hs
    obtain ⟨h1, h2, h3, h4, h5, h6, h7, h8, h9, h10, h11, h12⟩ := hs
    unfold JobState.from_status_str
    split
    all_goals simp_all

/-- C3, witness: the table theorem applied to a token from the table and
to a string outside the table. -/
theorem from_status_str_follows_table_witness :
    JobState.from_status_str "DEADLINE" = JobState.COMPLETED ∧
    JobState.from_status_str "" = JobState.UNKNOWN :=
  ⟨from_status_str_follows_table.1 ("DEADLINE", JobState.COMPLETED)
     (by simp [specClassificationTable]),
   from_status_str_follows_table.2 ""
     (by simp [specClassificationTable])⟩

/-- C4: during the wait, an `UNKNOWN` reading with less than 30 seconds
of wall-clock time elapsed never terminates the wait — the loop simply
continues with the remaining observations — while an `UNKNOWN` reading
at or beyond the 30-second mark is terminal: the wait returns failure
with error-level feedback. -/
theorem wait_unknown_grace_window (iterRunning : Nat) (p : PollEnv)
    (rest : List PollEnv) (hu : p.status = JobState.UNKNOWN) :
    (p.elapsed < 30 → waitAux iterRunning (p :: rest) = waitAux iterRunning rest) ∧
    (30 ≤ p.elapsed →
      waitAux iterRunning (p :: rest) = WaitOutcome.failure Level.error) := by
  constructor
  · intro hel
    simp [waitAux, hu, hel]
  · intro hel
    simp [waitAux, hu, Nat.not_lt.mpr hel]

/-- C4, witness: the grace-window theorem applied to concrete `UNKNOWN`
readings at 10 and at 40 elapsed seconds. -/
theorem wait_unknown_grace_window_witness :
    waitAux 0 [⟨JobState.UNKNOWN, "", 10⟩] = waitAux 0 [] ∧
    waitAux 0 [⟨JobState.UNKNOWN, "", 40⟩] = WaitOutcome.failure Level.error :=
  ⟨(wait_unknown_grace_window 0 ⟨JobState.UNKNOWN, "", 10⟩ [] rfl).1 (by decide),
   (wait_unknown_grace_window 0 ⟨JobState.UNKNOWN, "", 40⟩ [] rfl).2 (by decide)⟩

/-- C10: when the start-time query's output is empty,
`get_slurm_start_time` raises `IndexError` (it indexes the first line
without an emptiness guard, unlike `get_slurm_job_status`, which returns
`("", UNKNOWN)` on empty output); consequently a `PENDING` observation
in the wait loop whose start-estimate output is empty aborts the wait
with that exception rather than continuing to poll. -/
theorem start_time_empty_output_raises (out : String) (iterRunning : Nat)
    (p : PollEnv) (rest : List PollEnv) :
    (pyStrip out.data = [] → get_slurm_start_time out = Except.error PyErr.indexError) ∧
    (pyStrip out.data = [] → get_slurm_job_status out = ("", JobState.UNKNOWN)) ∧
    (p.status = JobState.PENDING → pyStrip p.startOut.data = [] →
      waitAux iterRunning (p :: rest) = WaitOutcome.raised PyErr.indexError) := by
  refine ⟨?_, ?_, ?_⟩
  · intro h
    simp [get_slurm_start_time, h, pySplitlines]
  · intro h
    simp [get_slurm_job_status, h]
  · intro hp h
    simp [waitAux, hp, get_slurm_start_time, h, pySplitlines]

/-- C10, witness: the empty-output behaviour at the concrete empty
string and a concrete `PENDING` observation. -/
theorem start_time_empty_output_raises_witness :
    get_slurm_start_time "" = Except.error PyErr.indexError ∧
    get_slurm_job_status "" = ("", JobState.UNKNOWN) ∧
    waitAux 0 [⟨JobState.PENDING, "", 0⟩] = WaitOutcome.raised PyErr.indexError :=
  ⟨(start_time_empty_output_raises "" 0 ⟨JobState.PENDING, "", 0⟩ []).1 (by decide),
   (start_time_empty_output_raises "" 0 ⟨JobState.PENDING, "", 0⟩ []).2.1 (by decide),
   (start_time_empty_output_raises "" 0 ⟨JobState.PENDING, "", 0⟩ []).2.2 rfl (by decide)⟩

/-- C9, counterexample: when the scheduler's node listing is empty,
`get_slurm_node` does not return a blank string — it raises
`IndexError` at the unguarded `splitlines()[0]` index. -/
theorem node_query_empty_listing_raises :
    get_slurm_node "" = Except.error PyErr.indexError ∧
    get_slurm_node "" ≠ Except.ok "" ∧
    get_slurm_node "\n" = Except.error PyErr.indexError := by
  refine ⟨by decide, by decide, by decide⟩

/-- C9, amended: `get_slurm_node` returns the stripped first line of the
scheduler output whenever the stripped output is non-empty, but when the
node listing is empty it raises an unhandled `IndexError` instead of
returning a blank string (the emptiness guard present in the status
query is missing here). -/
theorem node_query_blank_behaviour (out : String) :
    (pyStrip out.data = [] → get_slurm_node out = Except.error PyErr.indexError) ∧
    (pyStrip out.data ≠ [] → ∃ s, get_slurm_node out = Except.ok s) := by
  constructor
  · intro h
    simp [get_slurm_node, h, pySplitlines]
  · intro h
    match hp : pyStrip out.data with
    | [] => exact absurd hp h
    | c :: cs =>
      simp only [get_slurm_node, hp, pySplitlines]
      cases hsp : splitLinesAux (c :: cs) [] with
      | nil =>
        exfalso
        have : ∀ (l acc : List Char), splitLinesAux l acc ≠ [] := by
          intro l
          induction l with
          | nil => intro acc; simp [splitLinesAux]
          | cons a as ih =>
            intro acc
            by_cases ha : a = '\n'
            · subst ha; simp [splitLinesAux]
            · simpa [splitLinesAux, ha] using ih (acc.cons a)
        exact this (c :: cs) [] hsp
      | cons l ls => exact ⟨String.mk (pyStrip l), rfl⟩

/-- C9, witness: the amended behaviour at an empty listing and at the
listing from the repository's own test data. -/
theorem node_query_blank_behaviour_witness :
    get_slurm_node "" = Except.error PyErr.indexError ∧
    ∃ s, get_slurm_node "della-l01g02\nasdf" = Except.ok s :=
  ⟨(node_query_blank_behaviour "").1 (by decide),
   (node_query_blank_behaviour "della-l01g02\nasdf").2 (by decide)⟩

/-- C5, counterexample: when the `scancel` command exits non-zero (as
the scheduler may for an already-dead job), `cancel_slurm_job` raises
`CalledProcessError` — the command failure is not swallowed, so `cancel`
is not an invocation whose failure is swallowed at all. -/
theorem cancel_nonzero_exit_raises :
    cancel_slurm_job ⟨1, "scancel: error: already completed"⟩ =
      Except.error PyErr.calledProcessError := by
  decide

/-- C5, amended: `cancel_slurm_job` runs `scancel` through the same
checked-output discipline as every other scheduler invocation: a zero
exit is a no-op regardless of the job's state, and a non-zero exit
raises `CalledProcessError` from `cancel_slurm_job` itself (within the
deploy session such a failure is trapped only by the exit-hook
machinery, not by `cancel_slurm_job`). -/
theorem cancel_propagates_command_failure (r : CmdResult) :
    (r.exitCode = 0 → cancel_slurm_job r = Except.ok ()) ∧
    (r.exitCode ≠ 0 →
      cancel_slurm_job r = Except.error PyErr.calledProcessError) := by
  constructor
  · intro h
    simp [cancel_slurm_job, check_output, h, Except.map]
  · intro h
    simp [cancel_slurm_job, check_output, h, Except.map]

/-- C5, witness: the amended cancel behaviour at a zero and at a
non-zero `scancel` exit. -/
theorem cancel_propagates_command_failure_witness :
    cancel_slurm_job ⟨0, ""⟩ = Except.ok () ∧
    cancel_slurm_job ⟨1, ""⟩ = Except.error PyErr.calledProcessError :=
  ⟨(cancel_propagates_command_failure ⟨0, ""⟩).1 (by decide),
   (cancel_propagates_command_failure ⟨1, ""⟩).2 (by decide)⟩

/-- The scheduler's submission success marker. -/
def submissionMarker : List Char := "Submitted batch job ".data

/-- Scan a text for the first occurrence of a marker; on a hit, return
the text following the marker. -/
def findMarker (marker : List Char) : List Char → Option (List Char)
  | [] => if marker = [] then some [] else none
  | c :: rest =>
    if marker.isPrefixOf (c :: rest) then some ((c :: rest).drop marker.length)
    else findMarker marker rest

/-- Modelled from the spec: `sbatch` (the scheduler submit operation) is
imported by `deploy.py` from `llm_inference_platform.slurm` but its
definition is not part of the sources available here (only its tests and
callers are).  Per the spec, scheduler output containing the expected
success marker followed by an identifier yields that identifier as the
job id, which must be non-empty; output without the marker raises
`SubmissionError`. -/
def sbatch (out : String) : Except PyErr String :=
  match findMarker submissionMarker out.data with
  | none => Except.error PyErr.submissionError
  | some rest =>
    let jid := rest.takeWhile fun c => !(isSpaceChar c)
    if jid = [] then Except.error PyErr.submissionError
    else Except.ok (String.mk jid)

lemma isPrefixOf_append_self (m t : List Char) : m.isPrefixOf (m ++ t) = true := by
  induction m with
  | nil => simp [List.isPrefixOf]
  | cons c cs ih => simp [List.isPrefixOf, ih]

lemma findMarker_append (m t : List Char) (hm : m ≠ []) :
    findMarker m (m ++ t) = some t := by
  obtain ⟨c, m', rfl⟩ := List.exists_cons_of_ne_nil hm
  have hpre := isPrefixOf_append_self (c :: m') t
  rw [List.cons_append] at hpre ⊢
  rw [findMarker, if_pos hpre, ← List.cons_append, List.drop_left]

lemma takeWhile_of_forall {p : Char → Bool} (l : List Char)
    (h : ∀ c ∈ l, p c = true) : l.takeWhile p = l := by
  induction l with
  | nil => rfl
  | cons c cs ih =>
    rw [List.takeWhile_cons, h c (List.mem_cons_self c cs),
      ih fun x hx => h x (List.mem_cons_of_mem c hx)]
    simp

/-- C7: submission parsing — output consisting of the success marker
followed by a non-empty whitespace-free identifier yields exactly that
identifier as the job id; any job id returned is non-empty; output in
which the marker does not occur raises `SubmissionError`. -/
theorem sbatch_submission_parsing (jid : List Char) (out : String) (s : String) :
    (jid ≠ [] → (∀ c ∈ jid, isSpaceChar c = false) →
      sbatch (String.mk (submissionMarker ++ jid)) = Except.ok (String.mk jid)) ∧
    (sbatch out = Except.ok s → s ≠ "") ∧
    (findMarker submissionMarker out.data = none →
      sbatch out = Except.error PyErr.submissionError) := by
  refine ⟨?_, ?_, ?_⟩
  · intro hne hns
    have hdata : (String.mk (submissionMarker ++ jid)).data = submissionMarker ++ jid := rfl
    rw [sbatch, hdata, findMarker_append submissionMarker jid (by decide)]
    have : (jid.takeWhile fun c => !(isSpaceChar c)) = jid :=
      takeWhile_of_forall jid fun c hc => by simp [hns c hc]
    simp only [this]
    rw [if_neg hne]
  · intro h
    rw [sbatch] at h
    cases hf : findMarker submissionMarker out.data with
    | none => rw [hf] at h; exact absurd h (by simp)
    | some rest =>
      rw [hf] at h
      simp only at h
      by_cases hj : (rest.takeWhile fun c => !(isSpaceChar c)) = []
      · rw [if_pos hj] at h; exact absurd h (by simp)
      · rw [if_neg hj] at h
        have := Except.ok.inj h
        intro hs
        apply hj
        have : (rest.takeWhile fun c => !(isSpaceChar c)) = s.data := by
          rw [← this]
        rw [this, hs]
  · intro h
    rw [sbatch, h]

/-- C7, witness: the parsing theorem applied to the scheduler output
from the repository's own test data and to marker-free output. -/
theorem sbatch_submission_parsing_witness :
    sbatch (String.mk (submissionMarker ++ "12345".data)) = Except.ok (String.mk "12345".data) ∧
    sbatch "asdf" = Except.error PyErr.submissionError :=
  ⟨(sbatch_submission_parsing "12345".data "" "").1 (by decide) (by decide),
   (sbatch_submission_parsing "12345".data "asdf" "").2.2 (by decide)⟩

/-- One exit hook registered with Python `atexit`: a tag naming the
action and whether calling it raises. -/
structure ExitHook where
  name : Nat
  raises : Bool
  deriving DecidableEq, Repr

/-- Draining the exit hooks, per the documented CPython `atexit`
semantics relied on by `deploy.py`: registered callbacks run in reverse
registration order; an exception raised by a callback is caught and
logged, and the remaining callbacks still run.  Returns the tags of the
callbacks invoked, in invocation order, together with the tags of the
callbacks whose exception was caught and logged. -/
def runExitHooks : List ExitHook → List Nat × List Nat
  | [] => ([], [])
  | h :: rest =>
    let (ran, logged) := runExitHooks rest
    if h.raises then (ran ++ [h.name], logged ++ [h.name])
    else (ran ++ [h.name], logged)

/-- C6: hooks registered in order `[A, B, C]` are invoked in order
`[C, B, A]` whatever each one does when called — so an action that
raises has its failure trapped (it is only logged) and the remaining
actions still run — and, when the three tags are distinct, each action
runs exactly once; a raising action's tag appears in the log. -/
theorem cleanup_runs_reversed_trapping (A B C : ExitHook) :
    (runExitHooks [A, B, C]).1 = [C.name, B.name, A.name] ∧
    (runExitHooks [A, B, C]).2 =
      ((if C.raises then [C.name] else []) ++
       (if B.raises then [B.name] else []) ++
       (if A.raises then [A.name] else [])) ∧
    (A.name ≠ B.name → A.name ≠ C.name → B.name ≠ C.name →
      ∀ n ∈ [A.name, B.name, C.name], (runExitHooks [A, B, C]).1.count n = 1) := by
  obtain ⟨a, fa⟩ := A
  obtain ⟨b, fb⟩ := B
  obtain ⟨c, fc⟩ := C
  refine ⟨?_, ?_, ?_⟩
  · cases fa <;> cases fb <;> cases fc <;> rfl
  · cases fa <;> cases fb <;> cases fc <;> rfl
  · intro hab hac hbc n hn
    have h1 : (runExitHooks [⟨a, fa⟩, ⟨b, fb⟩, ⟨c, fc⟩]).1 = [c, b, a] := by
      cases fa <;> cases fb <;> cases fc <;> rfl
    rw [h1]
    simp only [List.mem_cons, List.not_mem_nil, or_false] at hn
    rcases hn with rfl | rfl | rfl <;>
      simp [List.count_cons, hab, hac, hbc, hab.symm, hac.symm, hbc.symm]

/-- C6, witness: the drain theorem applied to three concrete
distinctly-named hooks of which the middle one raises. -/
theorem cleanup_runs_reversed_trapping_witness :
    (runExitHooks [⟨1, false⟩, ⟨2, true⟩, ⟨3, false⟩]).1 = [3, 2, 1] ∧
    (runExitHooks [⟨1, false⟩, ⟨2, true⟩, ⟨3, false⟩]).1.count 2 = 1 :=
  ⟨(cleanup_runs_reversed_trapping ⟨1, false⟩ ⟨2, true⟩ ⟨3, false⟩).1,
   (cleanup_runs_reversed_trapping ⟨1, false⟩ ⟨2, true⟩ ⟨3, false⟩).2.2
     (by decide) (by decide) (by decide) 2 (by decide)⟩

/-- Cleanup actions that `deploy` registers with `atexit`
(`deploy.py` lines 259-282). -/
inductive LedgerAction where
  | printDebug (jobId : Option String)
  | cancelJob (jobId : String)
  | terminateTunnel
  | deleteHandoff
  deriving DecidableEq, Repr

/-- Whether a ledger entry is a registration of
`print_debug_information` (with any arguments) — `atexit.unregister`
removes every registration of that function. -/
def LedgerAction.isPrintDebug : LedgerAction → Bool
  | LedgerAction.printDebug _ => true
  | _ => false

/-- Externally observable milestones of a deploy session, used to state
ordering properties. -/
inductive Event where
  | jobSubmitted
  | tunnelSpawned
  | handoffWritten
  | tunnelLivenessChecked
  deriving DecidableEq, Repr

/-- One iteration of the monitoring loop of `deploy` observes whether
`forward_process.poll()` reports the tunnel child as exited, the text of
this iteration's `sacct` status query, and whether the operator's
`KeyboardInterrupt` arrives at this iteration. -/
structure MonitorObs where
  interrupted : Bool
  tunnelExited : Bool
  sacctOut : String
  deriving DecidableEq, Repr

/-- How the controlling process ends: `code n` is the interpreter exit
code (`sys.exit(n)`, or 0 for a normal return), `uncaught e` is an
exception propagating out of `deploy` (interpreter exit code 1), and
`hung` means the scripted observations ran out while the code would
still be looping. -/
inductive SessionExit where
  | code (n : Nat)
  | uncaught (e : PyErr)
  | hung
  deriving DecidableEq, Repr

/-- Result of a deploy session: how the process ends, the `atexit`
ledger (in registration order) at that moment, whether the handoff
record file was written, and the milestone events in order. -/
structure SessionResult where
  exit : SessionExit
  ledger : List LedgerAction
  handoffWritten : Bool
  events : List Event
  deriving DecidableEq, Repr

/-- `print_usage_instructions` from `deploy.py` lines 223-237: after
printing the first connection option it executes
`compute_node = get_slurm_node()` — but `get_slurm_node` has a required
positional parameter `job_id`, so this call unconditionally raises
`TypeError` (missing 1 required positional argument). -/
def print_usage_instructions (_port : String) : Except PyErr Unit :=
  Except.error PyErr.typeError

/-- The monitoring loop of `deploy` (`deploy.py` lines 284-300) over
scripted observations: each iteration first checks the tunnel child
(exit code 125 if it died), then queries the job status — `RUNNING`
continues, `COMPLETED` exits 0, anything else exits 123; a
`KeyboardInterrupt` is caught and the loop ends as an intentional
shutdown (normal return, interpreter exit code 0). -/
def monitor : List MonitorObs → SessionExit × List Event
  | [] => (SessionExit.hung, [])
  | ob :: rest =>
    if ob.interrupted then (SessionExit.code 0, [])
    else
      if ob.tunnelExited then (SessionExit.code 125, [Event.tunnelLivenessChecked])
      else
        match (get_slurm_job_status ob.sacctOut).2 with
        | JobState.RUNNING =>
          let (e, evs) := monitor rest
          (e, Event.tunnelLivenessChecked :: evs)
        | JobState.COMPLETED => (SessionExit.code 0, [Event.tunnelLivenessChecked])
        | _ => (SessionExit.code 123, [Event.tunnelLivenessChecked])

/-- The external observations a deploy session consumes: the output of
the `sbatch` command, the wait-loop observations, the `squeue` output
used to resolve the compute node, the locally allocated port, and the
monitoring-loop observations. -/
structure DeployEnv where
  sbatchOut : String
  waitTrace : List PollEnv
  squeueOut : String
  port : String
  monitorTrace : List MonitorObs
  deriving DecidableEq, Repr

/-- `deploy` from `deploy.py` lines 253-300, as a function of the
scripted environment: register the debug-info hook, submit, register the
cancel hook, swap the debug-info hook for one carrying the job id, run
the wait (exit 234 on failure), resolve the node, spawn the tunnel and
register its termination hook, write the handoff record and register its
deletion hook, print the usage instructions (which unconditionally
raise `TypeError`, see `print_usage_instructions`), then monitor. -/
def deploy (env : DeployEnv) : SessionResult :=
  let l0 := [LedgerAction.printDebug none]
  match sbatch env.sbatchOut with
  | Except.error e => ⟨SessionExit.uncaught e, l0, false, []⟩
  | Except.ok jobId =>
    let l1 := l0 ++ [LedgerAction.cancelJob jobId]
    let l2 := (l1.filter fun a => !(LedgerAction.isPrintDebug a)) ++
      [LedgerAction.printDebug (some jobId)]
    let ev0 := [Event.jobSubmitted]
    match wait env.waitTrace with
    | WaitOutcome.raised e => ⟨SessionExit.uncaught e, l2, false, ev0⟩
    | WaitOutcome.exhausted => ⟨SessionExit.hung, l2, false, ev0⟩
    | WaitOutcome.failure _ => ⟨SessionExit.code 234, l2, false, ev0⟩
    | WaitOutcome.success =>
      match get_slurm_node env.squeueOut with
      | Except.error e => ⟨SessionExit.uncaught e, l2, false, ev0⟩
      | Except.ok _node =>
        let l3 := l2 ++ [LedgerAction.terminateTunnel]
        let ev1 := ev0 ++ [Event.tunnelSpawned]
        let l4 := l3 ++ [LedgerAction.deleteHandoff]
        let ev2 := ev1 ++ [Event.handoffWritten]
        match print_usage_instructions env.port with
        | Except.error e => ⟨SessionExit.uncaught e, l4, true, ev2⟩
        | Except.ok _ =>
          let (ex, evs) := monitor env.monitorTrace
          ⟨ex, l4, true, ev2 ++ evs⟩

/-- Whether the handoff record file still exists once the session has
ended and the `atexit` ledger has been drained: it exists only if it was
written and no `deleteHandoff` action was registered (the drain runs
every registered action; `Path.unlink` removes the file, and a failure
of the unlink call would be trapped by the exit-hook machinery). -/
def handoffExistsAfter (res : SessionResult) : Bool :=
  res.handoffWritten && !(decide (LedgerAction.deleteHandoff ∈ res.ledger))

/-- The end-to-end success scenario: submission acknowledged, two
`RUNNING` polls, a node listing, a live tunnel, and a `COMPLETED`
status during monitoring. -/
def successScenario : DeployEnv :=
  ⟨"Submitted batch job 12345",
   [⟨JobState.RUNNING, "", 0⟩, ⟨JobState.RUNNING, "", 10⟩],
   "della-l01g02\nasdf",
   "8000",
   [⟨false, false, "COMPLETED\nCOMPLETED"⟩]⟩

/-- C2: in the end-to-end success scenario the session does not exit
with code 0 — `print_usage_instructions` calls `get_slurm_node()`
without its required `job_id` argument, so the session dies on an
uncaught `TypeError` before the monitoring loop ever runs (the handoff
file is nevertheless removed by the drained cleanup ledger, and the
scripted observations really are the success scenario: the wait
succeeds and the monitoring observations alone would have produced exit
code 0). -/
theorem deploy_success_scenario_hits_typeerror :
    (deploy successScenario).exit = SessionExit.uncaught PyErr.typeError ∧
    (deploy successScenario).exit ≠ SessionExit.code 0 ∧
    handoffExistsAfter (deploy successScenario) = false ∧
    wait successScenario.waitTrace = WaitOutcome.success ∧
    (monitor successScenario.monitorTrace).1 = SessionExit.code 0 := by
  refine ⟨by decide, by decide, by decide, by decide, by decide⟩

/-- A session in which the tunnel spawns after a successful wait. -/
def tunnelScenario : DeployEnv :=
  ⟨"Submitted batch job 777",
   [⟨JobState.RUNNING, "", 0⟩, ⟨JobState.RUNNING, "", 10⟩],
   "node07\n",
   "8123",
   [⟨false, false, "RUNNING"⟩]⟩

/-- C8, counterexample: the handoff record is written without the
tunnel ever being confirmed alive — in a session that reaches the
tunnel stage, the write event occurs although no liveness check has
happened (the first `forward_process.poll()` would only occur later, in
the monitoring loop). -/
theorem handoff_written_before_liveness_check :
    (deploy tunnelScenario).handoffWritten = true ∧
    (deploy tunnelScenario).events =
      [Event.jobSubmitted, Event.tunnelSpawned, Event.handoffWritten] ∧
    Event.tunnelLivenessChecked ∉ (deploy tunnelScenario).events := by
  refine ⟨by decide, by decide, by decide⟩

/-- C8, amended: the handoff record is written at most once per
session, immediately after the tunnel child is spawned but before any
tunnel liveness check (not after the tunnel is confirmed alive), and
once the session has ended and the cleanup ledger has drained, the file
no longer exists on any exit path. -/
theorem handoff_lifecycle (env : DeployEnv) :
    ((deploy env).events.count Event.handoffWritten ≤ 1) ∧
    ((deploy env).handoffWritten = true →
      ∃ post, (deploy env).events =
        [Event.jobSubmitted, Event.tunnelSpawned, Event.handoffWritten] ++ post ∧
        Event.tunnelLivenessChecked ∉
          [Event.jobSubmitted, Event.tunnelSpawned]) ∧
    handoffExistsAfter (deploy env) = false := by
  unfold deploy
  cases hsb : sbatch env.sbatchOut with
  | error e => simp [handoffExistsAfter]
  | ok jid =>
    cases hw : wait env.waitTrace with
    | raised e => simp [handoffExistsAfter]
    | exhausted => simp [handoffExistsAfter]
    | failure lvl => simp [handoffExistsAfter]
    | success =>
      cases hn : get_slurm_node env.squeueOut with
      | error e => simp [handoffExistsAfter]
      | ok node =>
        simp only [print_usage_instructions]
        refine ⟨by simp, fun _ => ⟨[], by simp, by decide⟩, ?_⟩
        simp [handoffExistsAfter]

/-- C8, witness: the amended lifecycle applied to the concrete tunnel
scenario, with the written-handoff hypothesis discharged there. -/
theorem handoff_lifecycle_witness :
    (deploy tunnelScenario).handoffWritten = true ∧
    (∃ post, (deploy tunnelScenario).events =
      [Event.jobSubmitted, Event.tunnelSpawned, Event.handoffWritten] ++ post ∧
      Event.tunnelLivenessChecked ∉ [Event.jobSubmitted, Event.tunnelSpawned]) ∧
    handoffExistsAfter (deploy tunnelScenario) = false :=
  ⟨by decide, (handoff_lifecycle tunnelScenario).2.1 (by decide),
   (handoff_lifecycle tunnelScenario).2.2⟩
